import Mathlib

/-! Shallow embedding of the answer-generation pipeline of the
simulations-platform repository (src/llm/generate.py) and of the experiment
re-run route (src/routes/experiment_details.py).

Modelling conventions: Python strings are `String` (a list of characters),
Python lists are `List`, `None`-able values are `Option`, code that may raise
is `Except String`; the external collaborators (document retrieval, the two
generation backends, the bandwidth-analysis module, the step-by-step
reasoning module, the simulation job) are oracle functions carried in an
environment record, so the control flow of the embedded functions is exactly
the source's. -/

namespace SimPlatform

/-- Python's substring test `needle in hay` on `str`. -/
def substr (needle hay : String) : Bool := decide (needle.data <:+: hay.data)

/-- Python's `str.endswith(suffix)`. -/
def pyEndsWith (s suffix : String) : Bool := decide (suffix.data <:+ s.data)

/-- Python's `str.lower()`; ASCII case mapping (the repository's vocabulary
and filenames are ASCII). -/
def pyLower (s : String) : String := ⟨s.data.map Char.toLower⟩

/-- Characters stripped by Python's `str.strip()` (ASCII whitespace). -/
def isPySpace (c : Char) : Bool :=
  c == ' ' || c == '\t' || c == '\n' || c == '\r' || c == '\x0b' || c == '\x0c'

/-- Python's `str.strip()`. -/
def pyStrip (s : String) : String :=
  ⟨((s.data.dropWhile isPySpace).reverse.dropWhile isPySpace).reverse⟩

/-- Python's slice `s[:n]` (by characters). -/
def strTake (s : String) (n : Nat) : String := ⟨s.data.take n⟩

/-- Helper of `pySplit`: accumulates the current field (reversed). -/
def splitCharAux (c : Char) : List Char → List Char → List String
  | [], acc => [⟨acc.reverse⟩]
  | x :: xs, acc =>
    if x = c then ⟨acc.reverse⟩ :: splitCharAux c xs []
    else splitCharAux c xs (x :: acc)

/-- Python's `s.split(sep)` for a one-character separator: keeps empty
fields, and `"".split(sep) == [""]`. -/
def pySplit (c : Char) (s : String) : List String := splitCharAux c s.data []

/-- Python's `sep.join(items)`. -/
def pyJoin (sep : String) : List String → String
  | [] => ""
  | [x] => x
  | x :: xs => x ++ sep ++ pyJoin sep xs

/-! ## Query classification (src/llm/generate.py) -/

/-- `bandwidth_keywords` of `is_bandwidth_query` (generate.py line 256). -/
def bandwidth_keywords : List String := ["bandwidth", "throughput", "speed", "data rate"]

/-- `file_keywords` of `is_bandwidth_query` (generate.py line 257). -/
def file_keywords : List String := ["flow", "flow_bandwidth", "flow bandwidth", "flow_bandwidth.csv"]

/-- `stat_keywords` of `is_bandwidth_query` (generate.py line 263). -/
def stat_keywords : List String := ["average", "avg", "mean", "statistics", "calculate", "median", "min", "max"]

/-- `is_bandwidth_query` (generate.py lines 246-267). -/
def is_bandwidth_query (query : String) : Bool :=
  let query_lower := pyLower query
  let bandwidth_match := bandwidth_keywords.any (fun kw => substr kw query_lower)
  let file_match := file_keywords.any (fun kw => substr kw query_lower)
  let stat_match := stat_keywords.any (fun kw => substr kw query_lower)
  (bandwidth_match && (file_match || stat_match)) || (file_match && stat_match)

/-- The fixed phrase list of the reasoning check (generate.py line 69). -/
def reasoning_phrases : List String :=
  ["step by step", "explain your thinking", "show your work", "reasoning"]

/-- The reasoning check of `generate_response` (generate.py line 69):
`any(phrase in query.lower() for phrase in [...])`. -/
def reasoningMatch (query : String) : Bool :=
  reasoning_phrases.any (fun p => substr p (pyLower query))

example : is_bandwidth_query "what is the average flow bandwidth" = true := by decide
example : is_bandwidth_query "hello" = false := by decide
example : reasoningMatch "explain Step By Step please" = true := by decide
example : pySplit '\n' "a\nb\n" = ["a", "b", ""] := by decide
example : pyStrip "  a b \n" = "a b" := by decide
example : pyJoin ", " ["a", "b", "c"] = "a, b, c" := by decide

/-! ## Documents -/

/-- A retrieved document as the pipeline reads it: the four dictionary keys
accessed by generate.py (`doc.get("filename", ...)`, `doc.get("text", "")`,
`doc.get("experiment_name", "")`, `doc.get("experiment_params", "")`); keys
are modelled as always present, absent optional values as `""`. -/
structure Doc where
  filename : String
  text : String
  experiment_name : String
  experiment_params : String
deriving DecidableEq, Repr

/-! ## Tabular parsing (the fallback parser's pandas and regex calls) -/

/-- Model of `pd.read_csv(io.StringIO(text), header=None)`: the non-blank
lines split on commas; `none` models the raised error when nothing remains
to parse (EmptyDataError) or when a row is wider than the first row
(ParserError); rows narrower than the first are padded with empty fields,
the empty field standing for NaN. -/
def parseCsv (text : String) : Option (List (List String)) :=
  match ((pySplit '\n' text).filter (fun l => l != "")).map (pySplit ',') with
  | [] => none
  | r0 :: rest =>
    if rest.all (fun r => r.length ≤ r0.length) then
      some ((r0 :: rest).map (fun r => r ++ List.replicate (r0.length - r.length) ""))
    else none

/-- `df[0].nunique()`: distinct non-NaN values of the first column. -/
def nunique0 (rows : List (List String)) : Nat :=
  (((rows.map (fun r => r.headD "")).filter (fun v => v != "")).dedup).length

/-- The value of a digit run, for numeric literals. -/
def digitsToNat (ds : List Char) : Nat := ds.foldl (fun n c => 10 * n + (c.toNat - 48)) 0

/-- An exact fraction (numerator over a positive denominator, not reduced):
the model of the Python float values this pipeline computes. The data the
claims exercise (small decimal numerals, their sums and means) is exact in
double precision, so exact fractions reproduce the float results. -/
structure PyNum where
  num : Int
  den : Nat
deriving DecidableEq, Repr

/-- Fraction addition (denominators multiply; no reduction). -/
def PyNum.add (a b : PyNum) : PyNum := ⟨a.num * b.den + b.num * a.den, a.den * b.den⟩

/-- Division of a fraction by a count (for the arithmetic mean). -/
def PyNum.divNat (a : PyNum) (n : Nat) : PyNum := ⟨a.num, a.den * n⟩

/-- `sum(values)` over fractions. -/
def pySum (l : List PyNum) : PyNum := l.foldl PyNum.add ⟨0, 1⟩

/-- `sum(values) / len(values)`. -/
def pyMean (l : List PyNum) : PyNum := (pySum l).divNat l.length

/-- The strict positivity test `float(num) > 0` (denominators are positive
by construction). -/
def PyNum.isPos (v : PyNum) : Bool := decide (0 < v.num)

/-- Model of Python's `float(s)` and of pandas' numeric coercion on the
simple numerals this repository's data holds: optional sign, digits with at
most one dot and at least one digit; anything else is `none` (a raised
ValueError, or NaN under `errors='coerce'`). -/
def pyFloat? (s : String) : Option PyNum :=
  let t := (pyStrip s).data
  let sign : Int := if t.headD ' ' = '-' then -1 else 1
  let t := if t.headD ' ' = '-' || t.headD ' ' = '+' then t.drop 1 else t
  if t.all (fun c => c.isDigit || c == '.') && t.any (fun c => c.isDigit)
      && (t.filter (fun c => c == '.')).length ≤ 1 then
    let intPart := t.takeWhile (fun c => c != '.')
    let fracPart := (t.dropWhile (fun c => c != '.')).drop 1
    some ⟨sign * (digitsToNat intPart * 10 ^ fracPart.length + digitsToNat fracPart),
      10 ^ fracPart.length⟩
  else none

/-- Python's `format(x, '.2f')` for the exact values this model computes:
the value rounded to hundredths (floor of `100 x + 1/2`), printed with two
decimals. -/
def fmt2 (v : PyNum) : String :=
  let n : Int := Int.fdiv (200 * v.num + v.den) (2 * v.den)
  let whole := n.natAbs / 100
  let frac := n.natAbs % 100
  (if n < 0 then "-" else "") ++ toString whole ++ "." ++
    (if frac < 10 then "0" ++ toString frac else toString frac)

/-- Helper of `findallNum`: accumulates the current run (reversed). -/
def findallNumAux : List Char → List Char → List String
  | [], cur => if cur.isEmpty then [] else [⟨cur.reverse⟩]
  | c :: cs, cur =>
    if c.isDigit || c == '.' then findallNumAux cs (c :: cur)
    else if cur.isEmpty then findallNumAux cs []
    else ⟨cur.reverse⟩ :: findallNumAux cs []

/-- Python's `re.findall(r'[\d.]+', text)`: maximal runs of digits and
dots. -/
def findallNum (s : String) : List String := findallNumAux s.data []

example : findallNum "x12.5,y3..4z" = ["12.5", "3..4"] := by decide
example : pyFloat? "12.5" = some ⟨125, 10⟩ := by decide
example : pyFloat? "3..4" = none := by decide
example : fmt2 ⟨20, 1⟩ = "20.00" := by decide
example : fmt2 ⟨25, 2⟩ = "12.50" := by decide

/-! ## The fallback parser (generate.py lines 397-475) -/

/-- Insertion into the model of a Python `set` of strings: a duplicate-free
list in first-insertion order (iteration order of a real `set` is
unspecified; only the length and the membership of this list are used by
the theorems below). -/
def insertNew (s : List String) (x : String) : List String :=
  if s.contains x then s else s ++ [x]

/-- `experiments_found` of `fallback_parser` (lines 402-407): the set of
non-empty `experiment_name` values of all documents. -/
def experimentsFoundFb (docs : List Doc) : List String :=
  docs.foldl (fun s d => if d.experiment_name != "" then insertNew s d.experiment_name else s) []

/-- `is_multi_experiment` of `fallback_parser` (line 408). -/
def fbIsMulti (docs : List Doc) : Bool := decide (1 < (experimentsFoundFb docs).length)

/-- The node-count answer for the matched document (lines 414-426): parsed
distinct count, or the line count of the stripped text when parsing
raises. -/
def nodeAnswer (d : Doc) : String :=
  match parseCsv d.text with
  | some rows =>
    "Based on the node_info.csv file, there are " ++ toString (nunique0 rows) ++
      " unique nodes in the simulation."
  | none =>
    "Based on the node_info.csv file, there appear to be approximately " ++
      toString (pySplit '\n' (pyStrip d.text)).length ++ " nodes in the simulation."

/-- The bandwidth-average answer attempt for one document (lines 430-456):
structural parse and last-column mean, else the mean of the strictly
positive regex-extracted numbers; `none` when this document yields no
answer and the loop moves on. -/
def bwDocAnswer (d : Doc) : Option String :=
  match parseCsv d.text with
  | some rows =>
    let width := (rows.headD []).length
    let vals := (rows.map (fun r => r.getD (width - 1) "")).filterMap pyFloat?
    some ("Based on " ++ d.filename ++ ", the average bandwidth is approximately " ++
      (if vals.isEmpty then "nan" else fmt2 (pyMean vals)) ++ ".")
  | none =>
    let numbers := findallNum d.text
    if numbers.isEmpty then none
    else
      match numbers.mapM pyFloat? with
      | none => none
      | some vals =>
        let values := vals.filter PyNum.isPos
        if values.isEmpty then none
        else some ("Based on " ++ d.filename ++ ", the average bandwidth is approximately " ++
          fmt2 (pyMean values) ++ ".")

/-- The bandwidth branch's loop over the pool (lines 429-456). -/
def bwSearch : List Doc → Option String
  | [] => none
  | d :: ds =>
    if substr "bandwidth" (pyLower d.filename) && d.text != "" then
      match bwDocAnswer d with
      | some ans => some ans
      | none => bwSearch ds
    else bwSearch ds

/-- `experiment_files` of the general fallback (lines 460-466): an
insertion-ordered dictionary from experiment name to its filename list. -/
def expFilesUpdate (acc : List (String × List String)) (exp filename : String) :
    List (String × List String) :=
  if acc.any (fun e => e.1 == exp) then
    acc.map (fun e => if e.1 == exp then (e.1, e.2 ++ [filename]) else e)
  else acc ++ [(exp, [filename])]

/-- The dictionary built over the whole pool (lines 460-466). -/
def experimentFiles (docs : List Doc) : List (String × List String) :=
  docs.foldl (fun acc d => expFilesUpdate acc d.experiment_name d.filename) []

/-- The general fallback (lines 458-475): an experiment-grouped manifest for
multi-experiment pools, a filename manifest otherwise. -/
def fallbackGeneral (docs : List Doc) : String :=
  let experiments_found := experimentsFoundFb docs
  if 1 < experiments_found.length then
    let summary := (experimentFiles docs).map (fun e => e.1 ++ ": " ++ pyJoin ", " e.2)
    "I found relevant information from " ++ toString experiments_found.length ++
      " experiments (" ++ pyJoin ", " experiments_found ++ ") in the following files:\n" ++
      pyJoin "\n" summary ++
      "\n\nHowever, I couldn't process the comparative analysis automatically. The API service is currently unavailable."
  else
    "I found relevant information in " ++ pyJoin ", " (docs.map (fun d => d.filename)) ++
      ", but couldn't process it automatically. The API service is currently unavailable."

/-- `fallback_parser` (generate.py lines 397-475). The node-count intent is
an `if` and the bandwidth intent its `elif`: a query matching the first
never reaches the second; a specialized branch whose loop returns nothing
falls through to the general fallback. -/
def fallbackParser (query : String) (context_docs : List Doc) : String :=
  let query_lower := pyLower query
  if substr "node" query_lower && (substr "count" query_lower || substr "how many" query_lower) then
    match context_docs.find? (fun d => d.filename == "node_info.csv" && d.text != "") with
    | some d => nodeAnswer d
    | none => fallbackGeneral context_docs
  else if substr "bandwidth" query_lower && substr "average" query_lower then
    match bwSearch context_docs with
    | some ans => ans
    | none => fallbackGeneral context_docs
  else fallbackGeneral context_docs

example :
    fallbackParser "node count" [⟨"node_info.csv", "A\nA\nB\nC", "", ""⟩] =
      "Based on the node_info.csv file, there are 3 unique nodes in the simulation." := by decide

example :
    fallbackParser "how many nodes" [⟨"node_info.csv", "A\nB,C\n\nD", "", ""⟩] =
      "Based on the node_info.csv file, there appear to be approximately 4 nodes in the simulation." := by
  decide

example :
    fallbackParser "average bandwidth" [⟨"flow_bandwidth.csv", "a,10\nb,20\nc,30", "", ""⟩] =
      "Based on flow_bandwidth.csv, the average bandwidth is approximately 20.00." := by decide

example :
    fallbackParser "average bandwidth" [⟨"flow_bandwidth.csv", "x\ny,3", "", ""⟩] =
      "Based on flow_bandwidth.csv, the average bandwidth is approximately 3.00." := by decide

example :
    fallbackParser "average bandwidth" [⟨"flow_bandwidth.csv", "x\ny,z", "", ""⟩] =
      "I found relevant information in flow_bandwidth.csv, but couldn't process it automatically. The API service is currently unavailable." := by
  decide

/-! ## Context aggregation inside `generate_response` (generate.py lines 87-129) -/

/-- `text_length` selection (lines 103-109), a function of
`len(context_docs)` alone. -/
def excerptLen (poolSize : Nat) : Nat :=
  if poolSize > 50 then 400 else if poolSize > 20 then 600 else 1000

/-- The excerpt for one document of the multi-experiment branch (lines
112-117): a raw prefix of the selected length, replaced by first 5 lines +
ellipsis + last 3 lines only for a `.csv` filename whose text has a newline
and splits into more than 10 lines. -/
def multiExcerpt (poolSize : Nat) (d : Doc) : String :=
  let excerpt := strTake d.text (excerptLen poolSize)
  if pyEndsWith d.filename ".csv" && substr "\n" d.text then
    let lines := pySplit '\n' d.text
    if lines.length > 10 then
      pyJoin "\n" (lines.take 5 ++ ["..."] ++ lines.drop (lines.length - 3))
    else excerpt
  else excerpt

/-- The context entry contributed by one document (lines 98-122): `none`
when the text is empty; the threshold table only in the branch with a
non-empty experiment name, a fixed 1000-character prefix otherwise. -/
def docContext (poolSize : Nat) (d : Doc) : Option String :=
  if d.text = "" then none
  else if d.experiment_name ≠ "" then
    some ("From " ++ d.experiment_name ++ " - " ++ d.filename ++ " (Parameters: " ++
      d.experiment_params ++ "):\n" ++ multiExcerpt poolSize d ++ "...")
  else some ("From " ++ d.filename ++ ":\n" ++ strTake d.text 1000 ++ "...")

/-- `experiments_found` of `generate_response` (lines 90-101): only a
document with non-empty text contributes its non-empty experiment name. -/
def experimentsFoundGen (docs : List Doc) : List String :=
  docs.foldl
    (fun s d => if d.text != "" && d.experiment_name != "" then insertNew s d.experiment_name else s)
    []

/-- `is_multi_experiment` of `generate_response` (line 129). -/
def genIsMulti (docs : List Doc) : Bool := decide (1 < (experimentsFoundGen docs).length)

/-! ## Prompt construction (generate.py lines 131-205) -/

/-- Lexicographic comparison of character lists (Python string order for
ASCII data). -/
def lexLe (a b : List Char) : Bool :=
  match a, b with
  | [], _ => true
  | _ :: _, [] => false
  | x :: xs, y :: ys => if x = y then lexLe xs ys else decide (x < y)

/-- Ordered insertion, for `sorted`. -/
def insertSorted (x : String) : List String → List String
  | [] => [x]
  | y :: ys => if lexLe x.data y.data then x :: y :: ys else y :: insertSorted x ys

/-- Python's `sorted` on strings. -/
def pySorted (l : List String) : List String := l.foldr insertSorted []

/-- One step of building `files_by_experiment` and `params_by_experiment`
(lines 134-145): filenames are a set (modelled insertion-ordered), the
parameter string is the first seen for the name. -/
def expSummaryUpdate (acc : List (String × List String × String)) (d : Doc) :
    List (String × List String × String) :=
  if acc.any (fun e => e.1 == d.experiment_name) then
    acc.map (fun e =>
      if e.1 == d.experiment_name then (e.1, insertNew e.2.1 d.filename, e.2.2) else e)
  else acc ++ [(d.experiment_name, [d.filename], d.experiment_params)]

/-- `files_by_experiment` with the associated parameters, over the pool. -/
def expSummary (docs : List Doc) : List (String × List String × String) :=
  docs.foldl expSummaryUpdate []

/-- The multi-experiment prompt (lines 147-180). -/
def multiPrompt (framework : String) (docs : List Doc) (expFound : List String)
    (contextString query : String) : String :=
  let summaryLines := (expSummary docs).map (fun e =>
    "**" ++ e.1 ++ "** (Parameters: " ++ e.2.2 ++ "): " ++ toString e.2.1.length ++
      " files - " ++ pyJoin ", " (pySorted e.2.1))
  "You are an AI assistant performing COMPREHENSIVE COMPARATIVE ANALYSIS across multiple network simulation experiments.\n\nIMPORTANT: You have access to ALL simulation data from ALL selected experiments. Use this complete dataset to provide thorough comparative analysis.\n\n**ANALYSIS SCOPE:**\n- " ++
    toString expFound.length ++ " different experiments: " ++ pyJoin ", " expFound ++
    "\n- " ++ toString docs.length ++
    " total data files analyzed\n- Complete data coverage for accurate comparison\n\n**EXPERIMENT DETAILS:**\n" ++
    pyJoin "\n" summaryLines ++
    "\n\n**ANALYSIS INSTRUCTIONS:**\n- Compare data across ALL experiments\n- Identify patterns, differences, and performance metrics\n- For \"which performed best\" questions, analyze all relevant metrics and provide rankings\n- Extract specific numbers and statistics from the data\n- Clearly identify which experiment each data point comes from\n\n## FloodNS Framework Concepts:\n" ++
    framework ++ "\n\n## COMPLETE Multi-Experiment Dataset (" ++ toString docs.length ++
    " files):\n" ++ contextString ++ "\n\n**User Question:** " ++ query ++
    "\n\n**Provide comprehensive comparative analysis based on ALL available simulation data:**"

/-- The single-experiment prompt (lines 181-205). -/
def singlePrompt (framework : String) (docs : List Doc) (contextString query : String) : String :=
  "You are an AI assistant performing COMPREHENSIVE ANALYSIS of network simulation data.\n\nIMPORTANT: You have access to ALL simulation files from this experiment. Use this complete dataset to provide thorough analysis.\n\n**ANALYSIS SCOPE:**\n- " ++
    toString docs.length ++
    " total data files analyzed\n- Complete data coverage for accurate analysis\n\n**ANALYSIS INSTRUCTIONS:**\n- Analyze ALL available data files for comprehensive insights\n- Extract specific numbers, statistics and factual information from the provided data\n- If the data contains CSV content, analyze the structure and count unique entries if needed\n- For node counts, count unique node IDs. For bandwidth questions, look for numerical values\n- Provide detailed analysis based on ALL available simulation data\n\n## FloodNS Framework Concepts:\n" ++
    framework ++ "\n\n## COMPLETE Single-Experiment Dataset (" ++ toString docs.length ++
    " files):\n" ++ contextString ++ "\n\n**User Question:** " ++ query ++
    "\n\n**Provide comprehensive analysis based on ALL available simulation data:**"

/-! ## The pipeline (generate.py lines 34-317) -/

/-- The pipeline's environment: the retrieval results, the configuration,
and the external collaborators as oracles. `ollama` is the local endpoint
call (its `Except` the transport errors `generate_with_ollama` catches),
`api` the hosted-inference call, `bandwidthAnalysis` the
`llm.bandwidth_analysis.analyze_bandwidth_for_chat` module (not under
src/), `think` the `llm.think_step_by_step` module (not under src/),
returning the reasoning and the result. -/
structure Env where
  run_dir : Option String
  multiDocs : List Doc
  singleDocs : List Doc
  use_local : Bool
  framework : String
  ollama : String → Except String String
  api : String → Except String String
  bandwidthAnalysis : String → String → Except String String
  think : String → String → Except String (String × String)

/-- What a pipeline call returns: the answer string, and how many
generation-backend calls (ollama, hosted API, or the reasoning module's API
call) were issued. -/
structure GenOut where
  answer : String
  backendCalls : Nat
deriving DecidableEq, Repr

/-- `generate_with_ollama` (lines 34-49): strips the response, returns a
placeholder on any error. -/
def generate_with_ollama (env : Env) (prompt : String) : String :=
  match env.ollama prompt with
  | .ok r => pyStrip r
  | .error _ => "There was an error calling the local model through Ollama."

/-- `generate_with_api` (lines 365-395): strips the echoed prompt prefix on
success; on error falls back to `fallback_parser` when documents and query
are available, else a placeholder. -/
def generate_with_api (env : Env) (prompt : String) (context_docs : List Doc)
    (query : String) : String :=
  match env.api prompt with
  | .ok response =>
    pyStrip (if response.data.length > prompt.data.length then
      ⟨response.data.drop prompt.data.length⟩ else response)
  | .error _ =>
    if !context_docs.isEmpty && query != "" then fallbackParser query context_docs
    else "I'm sorry, I couldn't access the language model service. Please try again later."

/-- The `sources_info` block of the multi-experiment return (lines
217-224). -/
def sourcesBlockMulti (docs : List Doc) (expFound : List String) : String :=
  let context_summary := pyJoin "\n" (docs.map (fun d => "- " ++ d.experiment_name ++ "/" ++ d.filename))
  "\nRetrieved ALL " ++ toString docs.length ++ " documents from " ++ toString expFound.length ++
    " experiments (" ++ pyJoin ", " expFound ++ "):\n" ++ context_summary ++ "\n"

/-- The `sources_info` block of the single-experiment return (lines
225-237). -/
def sourcesBlockSingle (docs : List Doc) (filenames : List String) : String :=
  let context_summary := pyJoin "\n" (filenames.map (fun f => "- " ++ f))
  let context_preview := pyJoin "\n" (docs.map (fun d => strTake d.text 100 ++ "..."))
  "\nRetrieved ALL " ++ toString docs.length ++ " documents from single experiment:\n" ++
    context_summary ++ "\n\nUsed context:\n" ++ context_preview ++ "\n"

/-- The non-empty-pool body of the standard path (lines 87-241):
aggregation, prompt, one backend call, and the answer with its `<sources>`
block appended (the `sources_info` depending on `is_multi_experiment`). -/
def standardAnswer (env : Env) (query : String) (context_docs : List Doc) : String :=
  let contexts := context_docs.filterMap (docContext context_docs.length)
  let filenames := (context_docs.filter (fun d => d.text != "")).map (fun d => d.filename)
  let experiments_found := experimentsFoundGen context_docs
  let context_string := pyJoin "\n\n" contexts
  let prompt :=
    if genIsMulti context_docs then
      multiPrompt env.framework context_docs experiments_found context_string query
    else singlePrompt env.framework context_docs context_string query
  let response :=
    if env.use_local then generate_with_ollama env prompt
    else generate_with_api env prompt context_docs query
  let sources_info :=
    if genIsMulti context_docs then sourcesBlockMulti context_docs experiments_found
    else sourcesBlockSingle context_docs filenames
  response ++ "\n\n<sources>\n" ++ sources_info ++ "\n</sources>"

/-- The standard generation path of `generate_response` (lines 72-241):
the "no data" return on empty retrieval, else `standardAnswer` with one
backend call made. -/
def standardGen (env : Env) (query : String) : GenOut :=
  let context_docs := if env.multiDocs.isEmpty then env.singleDocs else env.multiDocs
  if context_docs.isEmpty then
    ⟨"I couldn't find any simulation data to answer your question.", 0⟩
  else ⟨standardAnswer env query context_docs, 1⟩

/-- `combined_context` of the reasoning path (lines 289-305). -/
def combinedContext (env : Env) (docs : List Doc) : String :=
  let contexts := docs.filterMap (fun d =>
    if d.text != "" then some ("From " ++ d.filename ++ ":\n" ++ strTake d.text 1500 ++ "...")
    else none)
  "## FloodNS Framework Concepts:\n" ++ env.framework ++ "\n\n## Simulation Data:\n" ++
    pyJoin "\n\n" contexts

/-- `generate_response_with_reasoning` (lines 270-317): a
`<thinking>` block followed by the result on success, an error message on
failure; no `<sources>` block on either. -/
def generate_response_with_reasoning (env : Env) (query : String) : GenOut :=
  let context_docs := if env.multiDocs.isEmpty then env.singleDocs else env.multiDocs
  if context_docs.isEmpty then
    ⟨"I couldn't find any simulation data to reason about.", 0⟩
  else
    match env.think query (combinedContext env context_docs) with
    | .ok (reasoning, result) =>
      ⟨"<thinking>\n" ++ reasoning ++ "\n</thinking>\n\n" ++ result, 1⟩
    | .error e =>
      ⟨"I had trouble applying step-by-step reasoning to your question. Error: " ++ e, 1⟩

/-- The checks after the bandwidth block (lines 68-70): the reasoning
phrases, else the standard path. -/
def afterBandwidth (env : Env) (query : String) : GenOut :=
  if reasoningMatch query then generate_response_with_reasoning env query
  else standardGen env query

/-- `generate_response` (lines 52-243): the bandwidth-analysis dispatch is
checked first and returns only when a run directory is present and
`analyze_bandwidth_for_chat` does not raise; then the reasoning check; then
the standard path. -/
def generate_response (env : Env) (query : String) : GenOut :=
  if is_bandwidth_query query then
    match env.run_dir with
    | some rd =>
      match env.bandwidthAnalysis rd query with
      | .ok ans => ⟨ans, 0⟩
      | .error _ => afterBandwidth env query
    | none => afterBandwidth env query
  else afterBandwidth env query

/-! ## The experiment re-run route (src/routes/experiment_details.py) -/

/-- The fields of an experiment record that `re_run_experiment` reads or
writes. -/
structure ExpRecord where
  state : String
  end_time : Option String
  error : Option String
  params : String
deriving DecidableEq, Repr

/-- The first `update_one` of `re_run_experiment` (lines 36-39): sets the
state to "Re-Running"; a no-op when the record does not exist. -/
def reRunSetState (db : Option ExpRecord) : Option ExpRecord :=
  db.map (fun r => { r with state := "Re-Running" })

/-- `run_in_background` (lines 42-82) as a function of the record store at
the time the thread runs: returns unchanged when the record is gone; on a
normal return of the simulation job sets Finished with the end time; on any
raised exception sets Error with the message. `job` stands for the body
from the `params` parse through `local_run_single_job` (the simulation
runner is not under src/). -/
def runInBackground (job : ExpRecord → Except String Unit) (now : String)
    (db : Option ExpRecord) : Option ExpRecord :=
  match db with
  | none => none
  | some r =>
    match job r with
    | .ok _ => some { r with state := "Finished", end_time := some now }
    | .error e => some { r with state := "Error", error := some e }

/-- `re_run_experiment` (lines 31-90): the state update, then the
background unit of work run to completion (the sequential composition
models the thread having terminated with no concurrent writer). -/
def re_run_experiment (job : ExpRecord → Except String Unit) (now : String)
    (db : Option ExpRecord) : Option ExpRecord :=
  runInBackground job now (reRunSetState db)

/-! ## Substring lemmas -/

theorem substr_iff {p h : String} : substr p h = true ↔ p.data <:+: h.data :=
  decide_eq_true_iff

theorem substr_refl (p : String) : substr p p = true := substr_iff.mpr (List.infix_refl _)

theorem substr_left {p a : String} (b : String) (h : substr p a = true) :
    substr p (a ++ b) = true := by
  rw [substr_iff] at h ⊢
  rw [String.data_append]
  exact h.trans (List.prefix_append a.data b.data).isInfix

theorem substr_right {p b : String} (a : String) (h : substr p b = true) :
    substr p (a ++ b) = true := by
  rw [substr_iff] at h ⊢
  rw [String.data_append]
  exact h.trans (List.suffix_append a.data b.data).isInfix

theorem substr_of_mem_pyJoin {x : String} (sep : String) {l : List String} (h : x ∈ l) :
    substr x (pyJoin sep l) = true := by
  induction l with
  | nil => cases h
  | cons y ys ih =>
    cases ys with
    | nil =>
      obtain rfl := List.mem_singleton.mp h
      exact substr_refl x
    | cons z zs =>
      rcases List.mem_cons.mp h with rfl | h'
      · show substr x (x ++ sep ++ pyJoin sep (z :: zs)) = true
        exact substr_left _ (substr_left _ (substr_refl x))
      · show substr x (y ++ sep ++ pyJoin sep (z :: zs)) = true
        exact substr_right _ (ih h')

theorem substr_pyJoin_of_mem {p x : String} (sep : String) {l : List String} (hx : x ∈ l)
    (h : substr p x = true) : substr p (pyJoin sep l) = true := by
  have h2 := substr_of_mem_pyJoin sep hx
  rw [substr_iff] at h h2 ⊢
  exact h.trans h2

theorem ne_empty_left {a : String} (b : String) (h : a ≠ "") : a ++ b ≠ "" := by
  intro hab
  apply h
  apply String.ext
  have hd : (a ++ b).data = [] := by rw [hab]
  rw [String.data_append] at hd
  exact (List.append_eq_nil.mp hd).1

/-! ## C1: classification order of the bandwidth and reasoning branches -/

/-- A query matching both the bandwidth criteria and a reasoning phrase. -/
def qBoth : String := "Explain step by step the average flow bandwidth"

/-- An environment with a run directory and a succeeding bandwidth-analysis
module. -/
def envC1 : Env :=
  { run_dir := some "run_1", multiDocs := [],
    singleDocs := [⟨"flow_bandwidth.csv", "a,10", "", ""⟩],
    use_local := false, framework := "FW",
    ollama := fun _ => .error "down", api := fun _ => .error "down",
    bandwidthAnalysis := fun _ _ => .ok "BWRESULT",
    think := fun _ _ => .ok ("R", "A") }

/-- `envC1` without a run directory. -/
def envC1noRd : Env := { envC1 with run_dir := none }

/-- C1 counterexample: the query "Explain step by step the average flow
bandwidth" contains a reasoning phrase and satisfies the bandwidth
criteria, yet with a run directory present the pipeline dispatches it to
the bandwidth-analysis module, not to the reasoning branch. -/
theorem C1_counterexample :
    is_bandwidth_query qBoth = true ∧
    reasoningMatch qBoth = true ∧
    generate_response envC1 qBoth = ⟨"BWRESULT", 0⟩ ∧
    generate_response envC1 qBoth ≠ generate_response_with_reasoning envC1 qBoth :=
  ⟨by decide, by decide, rfl, by decide⟩

/-- C1 (amended): the bandwidth check comes first: a query satisfying the
bandwidth criteria is dispatched to the bandwidth-analysis module whenever
a run directory is present and the module returns; only when the bandwidth
dispatch does not apply does a reasoning-phrase query take the reasoning
branch. -/
theorem C1_bandwidth_before_reasoning :
    (∀ (env : Env) (q rd a : String), is_bandwidth_query q = true → env.run_dir = some rd →
       env.bandwidthAnalysis rd q = .ok a → generate_response env q = ⟨a, 0⟩) ∧
    (∀ (env : Env) (q : String), (is_bandwidth_query q = false ∨ env.run_dir = none) →
       reasoningMatch q = true →
       generate_response env q = generate_response_with_reasoning env q) := by
  constructor
  · intro env q rd a h1 h2 h3
    simp [generate_response, h1, h2, h3]
  · intro env q h1 h2
    rcases h1 with h1 | h1
    · simp [generate_response, h1, afterBandwidth, h2]
    · cases hb : is_bandwidth_query q <;>
        simp [generate_response, hb, h1, afterBandwidth, h2]

/-- C1 witness: the amended theorem applied at concrete inputs. -/
theorem C1_witness :
    generate_response envC1 qBoth = ⟨"BWRESULT", 0⟩ ∧
    generate_response envC1noRd qBoth = generate_response_with_reasoning envC1noRd qBoth :=
  ⟨C1_bandwidth_before_reasoning.1 envC1 qBoth "run_1" "BWRESULT" (by decide) rfl rfl,
   C1_bandwidth_before_reasoning.2 envC1noRd qBoth (Or.inr rfl) (by decide)⟩

/-! ## C3: excerpt-length selection -/

/-- C3: the threshold table of the multi-experiment branch (more than 50
documents gives 400 characters, more than 20 gives 600, otherwise 1000,
with the boundary pool sizes 51, 21, 50, 20 landing as the spec says), the
multi-experiment context entry of a non-tabular document being the prefix
of the selected length, and the single-experiment entry always using a
1000-character prefix. -/
theorem C3_excerpt_length_selection :
    (∀ n, 50 < n → excerptLen n = 400) ∧
    (∀ n, 20 < n → n ≤ 50 → excerptLen n = 600) ∧
    (∀ n, n ≤ 20 → excerptLen n = 1000) ∧
    (excerptLen 51 = 400 ∧ excerptLen 21 = 600 ∧ excerptLen 50 = 600 ∧ excerptLen 20 = 1000) ∧
    (∀ (n : Nat) (d : Doc), d.text ≠ "" → d.experiment_name ≠ "" →
       pyEndsWith d.filename ".csv" = false →
       docContext n d = some ("From " ++ d.experiment_name ++ " - " ++ d.filename ++
         " (Parameters: " ++ d.experiment_params ++ "):\n" ++
         strTake d.text (excerptLen n) ++ "...")) ∧
    (∀ (n : Nat) (d : Doc), d.text ≠ "" → d.experiment_name = "" →
       docContext n d = some ("From " ++ d.filename ++ ":\n" ++ strTake d.text 1000 ++ "...")) := by
  refine ⟨?_, ?_, ?_, by decide, ?_, ?_⟩
  · intro n h
    rw [excerptLen, if_pos h]
  · intro n h1 h2
    rw [excerptLen, if_neg (by omega), if_pos h1]
  · intro n h
    rw [excerptLen, if_neg (by omega), if_neg (by omega)]
  · intro n d h1 h2 h3
    simp [docContext, h1, h2, multiExcerpt, h3]
  · intro n d h1 h2
    simp [docContext, h1, h2]

/-- C3 witness: the theorem applied at pool sizes 60, 30, 10 and at
concrete documents of either mode. -/
theorem C3_witness :
    excerptLen 60 = 400 ∧ excerptLen 30 = 600 ∧ excerptLen 10 = 1000 ∧
    docContext 60 ⟨"conn_info.txt", "abc", "exp_a", "p"⟩ =
      some ("From " ++ "exp_a" ++ " - " ++ "conn_info.txt" ++ " (Parameters: " ++ "p" ++
        "):\n" ++ strTake "abc" (excerptLen 60) ++ "...") ∧
    docContext 60 ⟨"conn_info.txt", "abc", "", ""⟩ =
      some ("From " ++ "conn_info.txt" ++ ":\n" ++ strTake "abc" 1000 ++ "...") := by
  obtain ⟨h1, h2, h3, -, h5, h6⟩ := C3_excerpt_length_selection
  exact ⟨h1 60 (by omega), h2 30 (by omega) (by omega), h3 10 (by omega),
    h5 60 _ (by decide) (by decide) (by decide), h6 60 _ (by decide) rfl⟩

/-! ## C4: structural excerpts for delimited files -/

/-- A two-line csv document in the multi-experiment branch. -/
def docC4 : Doc := ⟨"a.csv", "1,2\n3,4", "exp_one", "p1"⟩

/-- An eleven-line csv document. -/
def docC4b : Doc :=
  ⟨"node_info.csv", "l1\nl2\nl3\nl4\nl5\nl6\nl7\nl8\nl9\nl10\nl11", "exp_one", "p1"⟩

/-- C4 counterexample: a `.csv` document whose text has multiple lines (two)
gets the raw prefix excerpt, not the structural first-5/ellipsis/last-3
form — the structural form requires more than 10 lines. -/
theorem C4_counterexample :
    pyEndsWith docC4.filename ".csv" = true ∧ substr "\n" docC4.text = true ∧
    multiExcerpt 10 docC4 = strTake docC4.text (excerptLen 10) ∧
    multiExcerpt 10 docC4 ≠
      pyJoin "\n" ((pySplit '\n' docC4.text).take 5 ++ ["..."] ++
        (pySplit '\n' docC4.text).drop ((pySplit '\n' docC4.text).length - 3)) :=
  ⟨by decide, by decide, by decide, by decide⟩

/-- C4 (amended): for a document of the multi-experiment branch whose
filename ends in `.csv`, whose text contains a newline and splits into more
than 10 lines, the excerpt is built structurally as first 5 lines, an
ellipsis marker and the last 3 lines, and the context entry embeds it. -/
theorem C4_structural_csv_excerpt :
    ∀ (n : Nat) (d : Doc), pyEndsWith d.filename ".csv" = true → substr "\n" d.text = true →
      10 < (pySplit '\n' d.text).length →
      (multiExcerpt n d =
        pyJoin "\n" ((pySplit '\n' d.text).take 5 ++ ["..."] ++
          (pySplit '\n' d.text).drop ((pySplit '\n' d.text).length - 3)) ∧
       (d.text ≠ "" → d.experiment_name ≠ "" →
         docContext n d = some ("From " ++ d.experiment_name ++ " - " ++ d.filename ++
           " (Parameters: " ++ d.experiment_params ++ "):\n" ++ multiExcerpt n d ++ "..."))) := by
  intro n d h1 h2 h3
  constructor
  · simp [multiExcerpt, h1, h2, h3]
  · intro h4 h5
    simp [docContext, h4, h5]

/-- C4 witness: the amended theorem applied to an eleven-line csv. -/
theorem C4_witness :
    multiExcerpt 5 docC4b =
      pyJoin "\n" ((pySplit '\n' docC4b.text).take 5 ++ ["..."] ++
        (pySplit '\n' docC4b.text).drop ((pySplit '\n' docC4b.text).length - 3)) ∧
    docContext 5 docC4b = some ("From " ++ docC4b.experiment_name ++ " - " ++ docC4b.filename ++
      " (Parameters: " ++ docC4b.experiment_params ++ "):\n" ++ multiExcerpt 5 docC4b ++ "...") :=
  ⟨(C4_structural_csv_excerpt 5 docC4b (by decide) (by decide) (by decide)).1,
   (C4_structural_csv_excerpt 5 docC4b (by decide) (by decide) (by decide)).2
     (by decide) (by decide)⟩

/-! ## C10: the re-run state protocol -/

/-- C10: the record is set to Re-Running before the background work; a
normal return of the simulation job leaves Finished with the end time set;
a raised exception leaves Error with the message stored; a record the
completed run returns is never in state Re-Running. -/
theorem C10_rerun_state_protocol :
    (∀ (db : Option ExpRecord) (r : ExpRecord), db = some r →
       reRunSetState db = some { r with state := "Re-Running" }) ∧
    (∀ (job : ExpRecord → Except String Unit) (now : String) (r : ExpRecord),
       job { r with state := "Re-Running" } = .ok () →
       re_run_experiment job now (some r) =
         some { r with state := "Finished", end_time := some now }) ∧
    (∀ (job : ExpRecord → Except String Unit) (now e : String) (r : ExpRecord),
       job { r with state := "Re-Running" } = .error e →
       re_run_experiment job now (some r) =
         some { r with state := "Error", error := some e }) ∧
    (∀ (job : ExpRecord → Except String Unit) (now : String) (db : Option ExpRecord)
       (r : ExpRecord), re_run_experiment job now db = some r → r.state ≠ "Re-Running") := by
  refine ⟨?_, ?_, ?_, ?_⟩
  · intro db r h
    subst h
    rfl
  · intro job now r h
    simp [re_run_experiment, runInBackground, reRunSetState, h]
  · intro job now e r h
    simp [re_run_experiment, runInBackground, reRunSetState, h]
  · intro job now db r h
    cases db with
    | none => simp [re_run_experiment, runInBackground, reRunSetState] at h
    | some r0 =>
      cases hj : job { r0 with state := "Re-Running" } with
      | ok u =>
        simp [re_run_experiment, runInBackground, reRunSetState, hj] at h
        subst h
        show ("Finished" : String) ≠ "Re-Running"
        decide
      | error e =>
        simp [re_run_experiment, runInBackground, reRunSetState, hj] at h
        subst h
        show ("Error" : String) ≠ "Re-Running"
        decide

/-- The always-succeeding simulation job. -/
def jobOk : ExpRecord → Except String Unit := fun _ => .ok ()

/-- A simulation job that raises. -/
def jobFail : ExpRecord → Except String Unit := fun _ => .error "boom"

/-- A concrete experiment record before the re-run. -/
def rec0 : ExpRecord := ⟨"Created", none, none, "1,4,2,ecmp,42"⟩

/-- C10 witness: the protocol applied at a concrete record with a
succeeding and with a raising job. -/
theorem C10_witness :
    re_run_experiment jobOk "2026-10-12" (some rec0) =
      some { rec0 with state := "Finished", end_time := some "2026-10-12" } ∧
    re_run_experiment jobFail "2026-10-12" (some rec0) =
      some { rec0 with state := "Error", error := some "boom" } := by
  obtain ⟨-, h2, h3, -⟩ := C10_rerun_state_protocol
  exact ⟨h2 jobOk "2026-10-12" rec0 rfl, h3 jobFail "2026-10-12" "boom" rec0 rfl⟩

/-! ## C6: empty retrieval -/

theorem generate_response_no_bandwidth {env : Env} {q : String}
    (h : is_bandwidth_query q = false ∨ env.run_dir = none) :
    generate_response env q = afterBandwidth env q := by
  rcases h with h | h
  · simp [generate_response, h]
  · cases hb : is_bandwidth_query q <;> simp [generate_response, hb, h]

theorem generate_response_not_dispatched {env : Env} {q : String}
    (h : is_bandwidth_query q = false ∨ env.run_dir = none ∨
      ∀ rd : String, env.run_dir = some rd → ∃ e, env.bandwidthAnalysis rd q = .error e) :
    generate_response env q = afterBandwidth env q := by
  rcases h with h | h | h
  · simp [generate_response, h]
  · cases hb : is_bandwidth_query q <;> simp [generate_response, hb, h]
  · cases hb : is_bandwidth_query q with
    | false => simp [generate_response, hb]
    | true =>
      cases hr : env.run_dir with
      | none => simp [generate_response, hb, hr]
      | some rd =>
        obtain ⟨e, he⟩ := h rd hr
        simp [generate_response, hb, hr, he]

/-- An empty-retrieval environment with a run directory and a succeeding
bandwidth-analysis module. -/
def envC6bw : Env :=
  { run_dir := some "run_1", multiDocs := [], singleDocs := [], use_local := false,
    framework := "FW", ollama := fun _ => .error "down", api := fun _ => .error "down",
    bandwidthAnalysis := fun _ _ => .ok "BW", think := fun _ _ => .ok ("R", "A") }

/-- C6 counterexample: with both retrieval calls empty, a bandwidth query
with a run directory is answered by the bandwidth-analysis module, not by
the fixed "no data found" message. -/
theorem C6_counterexample :
    envC6bw.multiDocs = [] ∧ envC6bw.singleDocs = [] ∧
    is_bandwidth_query "average flow bandwidth" = true ∧
    generate_response envC6bw "average flow bandwidth" = ⟨"BW", 0⟩ ∧
    generate_response envC6bw "average flow bandwidth" ≠
      ⟨"I couldn't find any simulation data to answer your question.", 0⟩ :=
  ⟨rfl, rfl, by decide, by decide, by decide⟩

/-- C6 (amended): with both retrieval calls empty, a query dispatched to
the bandwidth-analysis module (criteria met, run directory present, module
returns) gets the module's answer; in every other case — criteria unmet, no
run directory, or the module raising — the pipeline returns the fixed
"no data found" message (the reasoning-branch variant on the reasoning
branch) as an ordinary string; no generation-backend call is made on any of
these paths. -/
theorem C6_empty_pools_no_backend :
    ∀ (env : Env) (q : String), env.multiDocs = [] → env.singleDocs = [] →
      (is_bandwidth_query q = true →
        ∀ (rd a : String), env.run_dir = some rd → env.bandwidthAnalysis rd q = .ok a →
          generate_response env q = ⟨a, 0⟩) ∧
      ((is_bandwidth_query q = false ∨ env.run_dir = none ∨
          (∀ rd : String, env.run_dir = some rd → ∃ e, env.bandwidthAnalysis rd q = .error e)) →
        (reasoningMatch q = false →
          generate_response env q =
            ⟨"I couldn't find any simulation data to answer your question.", 0⟩) ∧
        (reasoningMatch q = true →
          generate_response env q =
            ⟨"I couldn't find any simulation data to reason about.", 0⟩)) := by
  intro env q h1 h2
  constructor
  · intro hb rd a hrd ha
    simp [generate_response, hb, hrd, ha]
  · intro h3
    constructor
    · intro hr
      rw [generate_response_not_dispatched h3]
      simp [afterBandwidth, hr, standardGen, h1, h2]
    · intro hr
      rw [generate_response_not_dispatched h3]
      simp [afterBandwidth, hr, generate_response_with_reasoning, h1, h2]

/-- An environment whose retrieval returns nothing. -/
def envEmpty : Env :=
  { run_dir := none, multiDocs := [], singleDocs := [], use_local := false, framework := "FW",
    ollama := fun _ => .ok "r", api := fun _ => .ok "r",
    bandwidthAnalysis := fun _ _ => .ok "b", think := fun _ _ => .ok ("R", "A") }

/-- `envC6bw` with the bandwidth-analysis module raising. -/
def envC6err : Env := { envC6bw with bandwidthAnalysis := fun _ _ => .error "crash" }

/-- C6 witness: the amended theorem applied at concrete environments — the
dispatched bandwidth answer, the ordinary empty-retrieval message, and the
message when the bandwidth module raises. -/
theorem C6_witness :
    generate_response envC6bw "average flow bandwidth" = ⟨"BW", 0⟩ ∧
    generate_response envEmpty "what happened" =
      ⟨"I couldn't find any simulation data to answer your question.", 0⟩ ∧
    generate_response envC6err "average flow bandwidth" =
      ⟨"I couldn't find any simulation data to answer your question.", 0⟩ :=
  ⟨(C6_empty_pools_no_backend envC6bw "average flow bandwidth" rfl rfl).1
      (by decide) "run_1" "BW" rfl rfl,
   ((C6_empty_pools_no_backend envEmpty "what happened" rfl rfl).2
      (Or.inr (Or.inl rfl))).1 (by decide),
   ((C6_empty_pools_no_backend envC6err "average flow bandwidth" rfl rfl).2
      (Or.inr (Or.inr (fun rd _ => ⟨"crash", rfl⟩)))).1 (by decide)⟩

/-! ## C5: the is_multi_experiment flags -/

theorem mem_insertNew {s : List String} {x y : String} :
    y ∈ insertNew s x ↔ y ∈ s ∨ y = x := by
  unfold insertNew
  split
  · rename_i h
    constructor
    · exact Or.inl
    · rintro (hy | rfl)
      · exact hy
      · simpa using h
  · simp

theorem nodup_insertNew {s : List String} (x : String) (h : s.Nodup) :
    (insertNew s x).Nodup := by
  unfold insertNew
  split
  · exact h
  · rename_i hc
    have hx : x ∉ s := fun hm => hc (by simpa using hm)
    simp [List.nodup_append, h, hx]

theorem foldl_and_filter (p q : Doc → Bool) (g : List String → Doc → List String) :
    ∀ (docs : List Doc) (acc : List String),
      docs.foldl (fun s d => if p d && q d then g s d else s) acc =
        (docs.filter p).foldl (fun s d => if q d then g s d else s) acc := by
  intro docs
  induction docs with
  | nil => intro acc; rfl
  | cons d ds ih =>
    intro acc
    rw [List.filter_cons]
    simp only [List.foldl_cons]
    cases hp : p d with
    | false =>
      rw [Bool.false_and, if_neg (by decide), if_neg (by decide)]
      exact ih acc
    | true =>
      rw [Bool.true_and, if_pos rfl]
      simp only [List.foldl_cons]
      exact ih _

theorem experimentsFoundGen_eq_filter (docs : List Doc) :
    experimentsFoundGen docs = experimentsFoundFb (docs.filter (fun d => d.text != "")) := by
  exact foldl_and_filter (fun d => d.text != "") (fun d => d.experiment_name != "")
    (fun s d => insertNew s d.experiment_name) docs []

theorem foldFb_spec :
    ∀ (docs : List Doc) (acc : List String), acc.Nodup →
      (docs.foldl
        (fun s d => if d.experiment_name != "" then insertNew s d.experiment_name else s)
        acc).Nodup ∧
      ∀ x : String,
        x ∈ docs.foldl
          (fun s d => if d.experiment_name != "" then insertNew s d.experiment_name else s) acc ↔
        (x ∈ acc ∨ (x ≠ "" ∧ ∃ d ∈ docs, d.experiment_name = x)) := by
  intro docs
  induction docs with
  | nil =>
    intro acc hacc
    refine ⟨hacc, fun x => ?_⟩
    simp
  | cons d ds ih =>
    intro acc hacc
    simp only [List.foldl_cons]
    cases hn : (d.experiment_name != "") with
    | false =>
      have hne : d.experiment_name = "" := by simpa using hn
      rw [if_neg (by decide)]
      obtain ⟨ihn, ihm⟩ := ih acc hacc
      refine ⟨ihn, fun x => ?_⟩
      rw [ihm x]
      constructor
      · rintro (hx | ⟨hxe, d', hd', hx⟩)
        · exact Or.inl hx
        · exact Or.inr ⟨hxe, d', List.mem_cons_of_mem d hd', hx⟩
      · rintro (hx | ⟨hxe, d', hd', hx⟩)
        · exact Or.inl hx
        · rcases List.mem_cons.mp hd' with rfl | hd''
          · exact absurd (hx.symm.trans hne) hxe
          · exact Or.inr ⟨hxe, d', hd'', hx⟩
    | true =>
      have hne : d.experiment_name ≠ "" := by simpa using hn
      rw [if_pos rfl]
      obtain ⟨ihn, ihm⟩ := ih (insertNew acc d.experiment_name) (nodup_insertNew _ hacc)
      refine ⟨ihn, fun x => ?_⟩
      rw [ihm x, mem_insertNew]
      constructor
      · rintro ((hx | rfl) | ⟨hxe, d', hd', hx⟩)
        · exact Or.inl hx
        · exact Or.inr ⟨hne, d, List.mem_cons_self d ds, rfl⟩
        · exact Or.inr ⟨hxe, d', List.mem_cons_of_mem d hd', hx⟩
      · rintro (hx | ⟨hxe, d', hd', hx⟩)
        · exact Or.inl (Or.inl hx)
        · rcases List.mem_cons.mp hd' with rfl | hd''
          · exact Or.inl (Or.inr hx.symm)
          · exact Or.inr ⟨hxe, d', hd'', hx⟩

theorem experimentsFoundFb_spec (docs : List Doc) :
    (experimentsFoundFb docs).Nodup ∧
      ∀ x : String, x ∈ experimentsFoundFb docs ↔
        (x ≠ "" ∧ ∃ d ∈ docs, d.experiment_name = x) := by
  obtain ⟨h1, h2⟩ := foldFb_spec docs [] List.nodup_nil
  refine ⟨h1, fun x => ?_⟩
  rw [experimentsFoundFb, h2 x]
  simp

/-- A pool with two distinct experiment names where the first document's
text is empty. -/
def poolC5 : List Doc := [⟨"a.csv", "", "exp_a", ""⟩, ⟨"b.csv", "x", "exp_b", ""⟩]

/-- C5 counterexample: the number of distinct experiment names across
`poolC5` is 2 (exceeds one), yet the flag `generate_response` attaches is
false, because the empty-text document's name is not counted there. -/
theorem C5_counterexample :
    (experimentsFoundFb poolC5).length = 2 ∧ genIsMulti poolC5 = false :=
  ⟨by decide, by decide⟩

/-- C5 (amended): the flag computed in `generate_response` is true iff the
number of distinct non-empty experiment names among the documents with
non-empty text exceeds one; the fallback parser's flag is true iff that
number across the whole pool exceeds one — and `experimentsFoundFb` is
precisely the duplicate-free list of non-empty experiment names. -/
theorem C5_is_multi_characterization :
    ∀ docs : List Doc,
      (genIsMulti docs = true ↔
        1 < (experimentsFoundFb (docs.filter (fun d => d.text != ""))).length) ∧
      (fbIsMulti docs = true ↔ 1 < (experimentsFoundFb docs).length) ∧
      (experimentsFoundFb docs).Nodup ∧
      (∀ x : String, x ∈ experimentsFoundFb docs ↔
        (x ≠ "" ∧ ∃ d ∈ docs, d.experiment_name = x)) := by
  intro docs
  refine ⟨?_, ?_, (experimentsFoundFb_spec docs).1, (experimentsFoundFb_spec docs).2⟩
  · rw [genIsMulti, experimentsFoundGen_eq_filter, decide_eq_true_iff]
  · rw [fbIsMulti, decide_eq_true_iff]

/-- C5 witness: the characterization applied at the concrete pool. -/
theorem C5_witness :
    (genIsMulti poolC5 = true ↔
      1 < (experimentsFoundFb (poolC5.filter (fun d => d.text != ""))).length) ∧
    ("exp_a" ∈ experimentsFoundFb poolC5 ↔
      (("exp_a" : String) ≠ "" ∧ ∃ d ∈ poolC5, d.experiment_name = "exp_a")) :=
  ⟨(C5_is_multi_characterization poolC5).1,
   (C5_is_multi_characterization poolC5).2.2.2 "exp_a"⟩

/-! ## C8: the node-count fallback -/

/-- A pool whose node_info.csv parses: first column A, A, B, C. -/
def poolNodeOk : List Doc := [⟨"node_info.csv", "A\nA\nB\nC", "", ""⟩]

/-- A pool whose node_info.csv is ragged (line 2 wider than line 1), so
structural parsing raises; the stripped text splits into 4 lines of which
one is blank. -/
def poolNodeRagged : List Doc := [⟨"node_info.csv", "A\nB,C\n\nD", "", ""⟩]

/-- C8 counterexample: on a parse failure the code reports the count of all
lines of the stripped text (4, the blank interior line included), not the
count of non-empty lines (3). -/
theorem C8_counterexample :
    parseCsv "A\nB,C\n\nD" = none ∧
    ((pySplit '\n' (pyStrip "A\nB,C\n\nD")).filter (fun l => l != "")).length = 3 ∧
    fallbackParser "node count" poolNodeRagged =
      "Based on the node_info.csv file, there appear to be approximately 4 nodes in the simulation." :=
  ⟨by decide, by decide, by decide⟩

/-- C8 (amended): for every query containing "node" with "count" or "how
many", the fallback answers from the document named node_info.csv: the
count of distinct first-column values when it parses (3 for A, A, B, C),
and, when structural parsing raises, the count of all lines of the
whitespace-stripped text (blank interior lines included) labelled as
approximate. -/
theorem C8_node_count :
    ∀ q : String, substr "node" (pyLower q) = true →
      (substr "count" (pyLower q) = true ∨ substr "how many" (pyLower q) = true) →
      fallbackParser q poolNodeOk =
        "Based on the node_info.csv file, there are 3 unique nodes in the simulation." ∧
      fallbackParser q poolNodeRagged =
        "Based on the node_info.csv file, there appear to be approximately 4 nodes in the simulation." := by
  intro q h1 h2
  have hc : (substr "node" (pyLower q) &&
      (substr "count" (pyLower q) || substr "how many" (pyLower q))) = true := by
    rcases h2 with h2 | h2 <;> simp [h1, h2]
  constructor
  · simp only [fallbackParser]
    rw [if_pos hc]
    decide
  · simp only [fallbackParser]
    rw [if_pos hc]
    decide

/-- C8 witness: the amended theorem applied at the query "node count". -/
theorem C8_witness :
    fallbackParser "node count" poolNodeOk =
      "Based on the node_info.csv file, there are 3 unique nodes in the simulation." :=
  (C8_node_count "node count" (by decide) (Or.inl (by decide))).1

/-! ## C7: the bandwidth-average fallback -/

/-- A pool whose bandwidth file parses with last-column values 10, 20, 30. -/
def poolBwOk : List Doc := [⟨"flow_bandwidth.csv", "a,10\nb,20\nc,30", "", ""⟩]

/-- A pool whose bandwidth file is ragged, so structural parsing raises;
the raw text holds the single positive numeric substring 3. -/
def poolBwRagged : List Doc := [⟨"flow_bandwidth.csv", "x\ny,3", "", ""⟩]

/-- A pool whose bandwidth file is ragged and holds no numeric substring. -/
def poolBwNoNum : List Doc := [⟨"flow_bandwidth.csv", "x\ny,z", "", ""⟩]

/-- C7 counterexample: a query containing "bandwidth" and "average" that
also matches the node-count intent ("node" with "how many") is captured by
the node branch of the if/elif chain; with no node_info.csv present the
fallback returns the general manifest, never reaching the bandwidth
branch. -/
theorem C7_counterexample :
    substr "bandwidth" (pyLower "how many node average bandwidth") = true ∧
    substr "average" (pyLower "how many node average bandwidth") = true ∧
    fallbackParser "how many node average bandwidth" poolBwOk =
      "I found relevant information in flow_bandwidth.csv, but couldn't process it automatically. The API service is currently unavailable." ∧
    fallbackParser "how many node average bandwidth" poolBwOk ≠
      "Based on flow_bandwidth.csv, the average bandwidth is approximately 20.00." :=
  ⟨by decide, by decide, by decide, by decide⟩

/-- C7 (amended): for every query containing "bandwidth" and "average" that
does not also match the node-count intent, the fallback finds the document
whose filename contains "bandwidth" and returns the mean of its last
column's numeric values, non-numeric entries discarded (20.00 for 10, 20,
30); when structural parsing raises it returns the mean of the strictly
positive numeric substrings of the raw text; when that path finds no
numeric value, control falls through to the general summary. -/
theorem C7_bandwidth_average :
    ∀ q : String, substr "bandwidth" (pyLower q) = true → substr "average" (pyLower q) = true →
      (substr "node" (pyLower q) = false ∨
        (substr "count" (pyLower q) = false ∧ substr "how many" (pyLower q) = false)) →
      fallbackParser q poolBwOk =
        "Based on flow_bandwidth.csv, the average bandwidth is approximately 20.00." ∧
      fallbackParser q poolBwRagged =
        "Based on flow_bandwidth.csv, the average bandwidth is approximately 3.00." ∧
      fallbackParser q poolBwNoNum =
        "I found relevant information in flow_bandwidth.csv, but couldn't process it automatically. The API service is currently unavailable." := by
  intro q h1 h2 h3
  have hn : (substr "node" (pyLower q) &&
      (substr "count" (pyLower q) || substr "how many" (pyLower q))) = false := by
    rcases h3 with h3 | ⟨h3a, h3b⟩
    · simp [h3]
    · simp [h3a, h3b]
  have hn' : ¬((substr "node" (pyLower q) &&
      (substr "count" (pyLower q) || substr "how many" (pyLower q))) = true) := by
    simp [hn]
  have hb : (substr "bandwidth" (pyLower q) && substr "average" (pyLower q)) = true := by
    simp [h1, h2]
  refine ⟨?_, ?_, ?_⟩
  · simp only [fallbackParser]
    rw [if_neg hn', if_pos hb]
    decide
  · simp only [fallbackParser]
    rw [if_neg hn', if_pos hb]
    decide
  · simp only [fallbackParser]
    rw [if_neg hn', if_pos hb]
    decide

/-- C7 witness: the amended theorem applied at the query "average
bandwidth". -/
theorem C7_witness :
    fallbackParser "average bandwidth" poolBwOk =
      "Based on flow_bandwidth.csv, the average bandwidth is approximately 20.00." :=
  (C7_bandwidth_average "average bandwidth" (by decide) (by decide) (Or.inl (by decide))).1

/-! ## C2: the sources block -/

theorem substr_sourcesBlockSingle {f : String} (docs : List Doc) {filenames : List String}
    (hf : f ∈ filenames) : substr f (sourcesBlockSingle docs filenames) = true := by
  have h1 : substr f ("- " ++ f) = true := substr_right _ (substr_refl f)
  have h2 : substr f (pyJoin "\n" (filenames.map (fun f => "- " ++ f))) = true :=
    substr_pyJoin_of_mem "\n" (List.mem_map_of_mem _ hf) h1
  show substr f
    ("\nRetrieved ALL " ++ toString docs.length ++ " documents from single experiment:\n" ++
      pyJoin "\n" (filenames.map (fun f => "- " ++ f)) ++ "\n\nUsed context:\n" ++
      pyJoin "\n" (docs.map (fun d => strTake d.text 100 ++ "...")) ++ "\n") = true
  exact substr_left _ (substr_left _ (substr_left _ (substr_right _ h2)))

theorem substr_sourcesBlockMulti {d : Doc} (docs : List Doc) (expFound : List String)
    (hd : d ∈ docs) : substr d.filename (sourcesBlockMulti docs expFound) = true := by
  have h1 : substr d.filename ("- " ++ d.experiment_name ++ "/" ++ d.filename) = true :=
    substr_right _ (substr_refl _)
  have h2 : substr d.filename
      (pyJoin "\n" (docs.map (fun d => "- " ++ d.experiment_name ++ "/" ++ d.filename))) = true :=
    substr_pyJoin_of_mem "\n" (List.mem_map_of_mem _ hd) h1
  show substr d.filename
    ("\nRetrieved ALL " ++ toString docs.length ++ " documents from " ++
      toString expFound.length ++ " experiments (" ++ pyJoin ", " expFound ++ "):\n" ++
      pyJoin "\n" (docs.map (fun d => "- " ++ d.experiment_name ++ "/" ++ d.filename)) ++ "\n") = true
  exact substr_left _ (substr_right _ h2)

theorem standardAnswer_sources (env : Env) (q : String) (docs : List Doc) :
    substr "<sources>" (standardAnswer env q docs) = true ∧
    (genIsMulti docs = true →
      ∀ d ∈ docs, substr d.filename (standardAnswer env q docs) = true) ∧
    (genIsMulti docs = false →
      ∀ d ∈ docs, d.text ≠ "" → substr d.filename (standardAnswer env q docs) = true) := by
  have hshape : ∃ resp : String, standardAnswer env q docs =
      resp ++ "\n\n<sources>\n" ++
        (if genIsMulti docs then sourcesBlockMulti docs (experimentsFoundGen docs)
         else sourcesBlockSingle docs
           ((docs.filter (fun d => d.text != "")).map (fun d => d.filename))) ++
        "\n</sources>" := ⟨_, rfl⟩
  obtain ⟨resp, hsh⟩ := hshape
  rw [hsh]
  refine ⟨?_, ?_, ?_⟩
  · exact substr_left _ (substr_left _ (substr_right _ (by decide)))
  · intro hgm d hd
    apply substr_left
    apply substr_right
    rw [if_pos hgm]
    exact substr_sourcesBlockMulti docs _ hd
  · intro hgm d hd hdt
    apply substr_left
    apply substr_right
    rw [if_neg (by rw [hgm]; decide)]
    have hdt' : (d.text != "") = true := by simpa using hdt
    exact substr_sourcesBlockSingle docs
      (List.mem_map_of_mem _ (List.mem_filter.mpr ⟨hd, hdt'⟩))

/-- An environment on the reasoning path with a non-empty pool. -/
def envC2 : Env :=
  { run_dir := none, multiDocs := [], singleDocs := [⟨"node_info.csv", "A\nB", "", ""⟩],
    use_local := false, framework := "FW",
    ollama := fun _ => .error "down", api := fun _ => .error "down",
    bandwidthAnalysis := fun _ _ => .error "down", think := fun _ _ => .ok ("R", "A") }

/-- C2 counterexample: on the reasoning path with a non-empty pool the
returned answer is the thinking block plus the result, with no
`<sources>` segment at all. -/
theorem C2_counterexample :
    reasoningMatch "explain step by step" = true ∧
    envC2.singleDocs ≠ [] ∧
    generate_response envC2 "explain step by step" = ⟨"<thinking>\nR\n</thinking>\n\nA", 1⟩ ∧
    substr "<sources>" (generate_response envC2 "explain step by step").answer = false :=
  ⟨by decide, by decide, by decide, by decide⟩

/-- C2 (amended): on the standard path (generative success and
backend-failure fallback alike — the fallback text is produced inside
`generate_with_api` and the `<sources>` block is appended to it too), the
answer embeds a `<sources>` segment and names every pool document in
multi-experiment mode (empty-text documents included) and every document
with non-empty text in single-experiment mode; the reasoning path returns
without a sources block. -/
theorem C2_sources_block :
    ∀ (env : Env) (q : String),
      (is_bandwidth_query q = false ∨ env.run_dir = none) →
      reasoningMatch q = false →
      (env.multiDocs ≠ [] ∨ env.singleDocs ≠ []) →
      substr "<sources>" (generate_response env q).answer = true ∧
      (genIsMulti (if env.multiDocs.isEmpty then env.singleDocs else env.multiDocs) = true →
        ∀ d ∈ (if env.multiDocs.isEmpty then env.singleDocs else env.multiDocs),
          substr d.filename (generate_response env q).answer = true) ∧
      (genIsMulti (if env.multiDocs.isEmpty then env.singleDocs else env.multiDocs) = false →
        ∀ d ∈ (if env.multiDocs.isEmpty then env.singleDocs else env.multiDocs),
          d.text ≠ "" → substr d.filename (generate_response env q).answer = true) := by
  intro env q h1 h2 h3
  have hg : generate_response env q = standardGen env q := by
    rw [generate_response_no_bandwidth h1]
    simp [afterBandwidth, h2]
  have hsg : standardGen env q =
      ⟨standardAnswer env q (if env.multiDocs.isEmpty then env.singleDocs else env.multiDocs),
        1⟩ := by
    cases hm : env.multiDocs with
    | nil =>
      rcases h3 with h3 | h3
      · exact absurd hm h3
      · cases hs : env.singleDocs with
        | nil => exact absurd hs h3
        | cons b bs => simp [standardGen, hm, hs]
    | cons a as => simp [standardGen, hm]
  rw [hg, hsg]
  exact ⟨(standardAnswer_sources env q _).1,
    fun hgm d hd => (standardAnswer_sources env q _).2.1 hgm d hd,
    fun hgm d hd hdt => (standardAnswer_sources env q _).2.2 hgm d hd hdt⟩

/-- An environment on the standard path with a succeeding remote backend. -/
def envC2w : Env :=
  { run_dir := none, multiDocs := [], singleDocs := [⟨"doc_a.csv", "x", "", ""⟩],
    use_local := false, framework := "FW",
    ollama := fun _ => .error "down", api := fun _ => .ok "ANSWER",
    bandwidthAnalysis := fun _ _ => .error "down", think := fun _ _ => .ok ("R", "A") }

/-- A multi-experiment environment (two distinct experiments with text)
whose pool also holds an empty-text document. -/
def envC2m : Env :=
  { run_dir := none,
    multiDocs := [⟨"a.csv", "x", "exp_a", ""⟩, ⟨"b.csv", "y", "exp_b", ""⟩,
      ⟨"empty.csv", "", "exp_c", ""⟩],
    singleDocs := [], use_local := false, framework := "FW",
    ollama := fun _ => .error "down", api := fun _ => .ok "ANSWER",
    bandwidthAnalysis := fun _ _ => .error "down", think := fun _ _ => .ok ("R", "A") }

/-- C2 witness: the amended theorem applied at concrete environments; the
answer carries the sources block, the single-experiment answer names the
retrieved file, and the multi-experiment answer names even the empty-text
document of its pool. -/
theorem C2_witness :
    substr "<sources>" (generate_response envC2w "summarize the data").answer = true ∧
    substr "doc_a.csv" (generate_response envC2w "summarize the data").answer = true ∧
    substr "empty.csv" (generate_response envC2m "summarize the data").answer = true :=
  ⟨(C2_sources_block envC2w "summarize the data" (Or.inl (by decide)) (by decide)
      (Or.inr (by decide))).1,
   by
    have h := (C2_sources_block envC2w "summarize the data" (Or.inl (by decide)) (by decide)
      (Or.inr (by decide))).2.2 (by decide) ⟨"doc_a.csv", "x", "", ""⟩ (by decide) (by decide)
    exact h,
   by
    have h := (C2_sources_block envC2m "summarize the data" (Or.inl (by decide)) (by decide)
      (Or.inl (by decide))).2.1 (by decide) ⟨"empty.csv", "", "exp_c", ""⟩ (by decide)
    exact h⟩

/-! ## C9: totality of the fallback parser -/

theorem nodeAnswer_props (d : Doc) :
    substr "node_info.csv" (nodeAnswer d) = true ∧ nodeAnswer d ≠ "" := by
  unfold nodeAnswer
  cases parseCsv d.text with
  | some rows =>
    constructor
    · exact substr_left _ (substr_left _ (by decide))
    · exact ne_empty_left _ (ne_empty_left _ (by decide))
  | none =>
    constructor
    · exact substr_left _ (substr_left _ (by decide))
    · exact ne_empty_left _ (ne_empty_left _ (by decide))

theorem bwDocAnswer_props {d : Doc} {a : String} (h : bwDocAnswer d = some a) :
    substr d.filename a = true ∧ a ≠ "" := by
  simp only [bwDocAnswer] at h
  split at h
  · obtain rfl := Option.some.inj h
    constructor
    · exact substr_left _ (substr_left _ (substr_left _ (substr_right _ (substr_refl _))))
    · exact ne_empty_left _ (ne_empty_left _ (ne_empty_left _ (ne_empty_left _ (by decide))))
  · split at h
    · cases h
    · split at h
      · cases h
      · split at h
        · cases h
        · obtain rfl := Option.some.inj h
          constructor
          · exact substr_left _ (substr_left _ (substr_left _ (substr_right _ (substr_refl _))))
          · exact ne_empty_left _ (ne_empty_left _ (ne_empty_left _ (ne_empty_left _ (by decide))))

theorem bwSearch_props :
    ∀ (docs : List Doc) {a : String}, bwSearch docs = some a →
      (∃ d ∈ docs, substr d.filename a = true) ∧ a ≠ "" := by
  intro docs
  induction docs with
  | nil =>
    intro a h
    cases h
  | cons d ds ih =>
    intro a h
    simp only [bwSearch] at h
    by_cases hc : (substr "bandwidth" (pyLower d.filename) && (d.text != "")) = true
    · rw [if_pos hc] at h
      cases hb : bwDocAnswer d with
      | none =>
        rw [hb] at h
        obtain ⟨⟨d', hd', hs⟩, hne⟩ := ih h
        exact ⟨⟨d', List.mem_cons_of_mem d hd', hs⟩, hne⟩
      | some a0 =>
        rw [hb] at h
        obtain rfl := Option.some.inj h
        obtain ⟨hs, hne⟩ := bwDocAnswer_props hb
        exact ⟨⟨d, List.mem_cons_self d ds, hs⟩, hne⟩
    · rw [if_neg hc] at h
      obtain ⟨⟨d', hd', hs⟩, hne⟩ := ih h
      exact ⟨⟨d', List.mem_cons_of_mem d hd', hs⟩, hne⟩

theorem expFilesUpdate_preserve {acc : List (String × List String)} {f : String}
    (h : ∃ e ∈ acc, f ∈ e.2) (exp fn : String) :
    ∃ e ∈ expFilesUpdate acc exp fn, f ∈ e.2 := by
  obtain ⟨e, he, hf⟩ := h
  unfold expFilesUpdate
  split
  · refine ⟨if e.1 == exp then (e.1, e.2 ++ [fn]) else e, List.mem_map_of_mem _ he, ?_⟩
    split
    · exact List.mem_append_left _ hf
    · exact hf
  · exact ⟨e, List.mem_append_left _ he, hf⟩

theorem expFilesUpdate_new (acc : List (String × List String)) (exp fn : String) :
    ∃ e ∈ expFilesUpdate acc exp fn, fn ∈ e.2 := by
  unfold expFilesUpdate
  split
  · rename_i hc
    obtain ⟨e, he, hbe⟩ := List.any_eq_true.mp hc
    refine ⟨(e.1, e.2 ++ [fn]), ?_, List.mem_append_right _ (List.mem_singleton_self fn)⟩
    have heq : (if e.1 == exp then (e.1, e.2 ++ [fn]) else e) = (e.1, e.2 ++ [fn]) := if_pos hbe
    exact heq ▸ List.mem_map_of_mem _ he
  · exact ⟨(exp, [fn]), List.mem_append_right _ (List.mem_singleton_self _),
      List.mem_singleton_self fn⟩

theorem foldl_expFiles_preserve {f : String} :
    ∀ (docs : List Doc) (acc : List (String × List String)), (∃ e ∈ acc, f ∈ e.2) →
      ∃ e ∈ docs.foldl (fun acc d => expFilesUpdate acc d.experiment_name d.filename) acc,
        f ∈ e.2 := by
  intro docs
  induction docs with
  | nil =>
    intro acc h
    exact h
  | cons d ds ih =>
    intro acc h
    simp only [List.foldl_cons]
    exact ih _ (expFilesUpdate_preserve h _ _)

theorem experimentFiles_mem {d : Doc} :
    ∀ (docs : List Doc) (acc : List (String × List String)), d ∈ docs →
      ∃ e ∈ docs.foldl (fun acc d => expFilesUpdate acc d.experiment_name d.filename) acc,
        d.filename ∈ e.2 := by
  intro docs
  induction docs with
  | nil =>
    intro acc h
    cases h
  | cons d0 ds ih =>
    intro acc h
    simp only [List.foldl_cons]
    rcases List.mem_cons.mp h with rfl | h'
    · exact foldl_expFiles_preserve ds _ (expFilesUpdate_new acc d.experiment_name d.filename)
    · exact ih _ h'

theorem fallbackGeneral_props (docs : List Doc) :
    fallbackGeneral docs ≠ "" ∧
    (docs ≠ [] → ∃ d ∈ docs, substr d.filename (fallbackGeneral docs) = true) := by
  simp only [fallbackGeneral]
  by_cases hm : 1 < (experimentsFoundFb docs).length
  · rw [if_pos hm]
    constructor
    · exact ne_empty_left _ (ne_empty_left _ (ne_empty_left _ (ne_empty_left _
        (ne_empty_left _ (ne_empty_left _ (by decide))))))
    · intro hne
      obtain ⟨d0, hd0⟩ := List.exists_mem_of_ne_nil docs hne
      obtain ⟨e, he, hfe⟩ := experimentFiles_mem docs [] hd0
      have h1 : substr d0.filename (pyJoin ", " e.2) = true := substr_of_mem_pyJoin _ hfe
      have h2 : substr d0.filename (e.1 ++ ": " ++ pyJoin ", " e.2) = true := substr_right _ h1
      have h3 : substr d0.filename
          (pyJoin "\n" ((experimentFiles docs).map (fun e => e.1 ++ ": " ++ pyJoin ", " e.2))) =
            true :=
        substr_pyJoin_of_mem _ (List.mem_map_of_mem _ he) h2
      exact ⟨d0, hd0, substr_left _ (substr_right _ h3)⟩
  · rw [if_neg hm]
    constructor
    · exact ne_empty_left _ (ne_empty_left _ (by decide))
    · intro hne
      obtain ⟨d0, hd0⟩ := List.exists_mem_of_ne_nil docs hne
      have h1 : substr d0.filename (pyJoin ", " (docs.map (fun d => d.filename))) = true :=
        substr_of_mem_pyJoin _ (List.mem_map_of_mem _ hd0)
      exact ⟨d0, hd0, substr_left _ (substr_right _ h1)⟩

/-- C9: the fallback extractor is total: it always returns a non-empty
string, and for a non-empty pool the returned string contains the filename
of at least one retrieved document. -/
theorem C9_fallback_total :
    ∀ (q : String) (docs : List Doc),
      fallbackParser q docs ≠ "" ∧
      (docs ≠ [] → ∃ d ∈ docs, substr d.filename (fallbackParser q docs) = true) := by
  intro q docs
  simp only [fallbackParser]
  by_cases hn : (substr "node" (pyLower q) &&
      (substr "count" (pyLower q) || substr "how many" (pyLower q))) = true
  · rw [if_pos hn]
    cases hf : docs.find? (fun d => d.filename == "node_info.csv" && d.text != "") with
    | none => exact fallbackGeneral_props docs
    | some d =>
      have hd : d ∈ docs := List.mem_of_find?_eq_some hf
      have hp := List.find?_some hf
      have hfn : d.filename = "node_info.csv" := by
        have hp1 := (Bool.and_eq_true_iff.mp hp).1
        simpa using hp1
      obtain ⟨hs, hne⟩ := nodeAnswer_props d
      refine ⟨hne, fun _ => ⟨d, hd, ?_⟩⟩
      rw [hfn]
      exact hs
  · rw [if_neg hn]
    by_cases hb : (substr "bandwidth" (pyLower q) && substr "average" (pyLower q)) = true
    · rw [if_pos hb]
      cases hbs : bwSearch docs with
      | none => exact fallbackGeneral_props docs
      | some a =>
        obtain ⟨⟨d, hd, hs⟩, hne⟩ := bwSearch_props docs hbs
        exact ⟨hne, fun _ => ⟨d, hd, hs⟩⟩
    · rw [if_neg hb]
      exact fallbackGeneral_props docs

/-- C9 witness: the theorem applied at a concrete query and pool. -/
theorem C9_witness :
    fallbackParser "tell me" [⟨"conn_info.csv", "x", "", ""⟩] ≠ "" ∧
    substr "conn_info.csv" (fallbackParser "tell me" [⟨"conn_info.csv", "x", "", ""⟩]) = true :=
  ⟨(C9_fallback_total "tell me" [⟨"conn_info.csv", "x", "", ""⟩]).1, by
    obtain ⟨d, hd, hs⟩ :=
      (C9_fallback_total "tell me" [⟨"conn_info.csv", "x", "", ""⟩]).2 (by simp)
    obtain rfl := List.mem_singleton.mp hd
    exact hs⟩

end SimPlatform
